/-
Verification of the request-admission and accounting core of a Telegram
capture/query bot (rate limiter, daily budget ledger, answer cache, dedup
guard, query orchestrator).

Shallow embedding conventions:
- Python strings are modelled as lists of Unicode code points (`Str := List Nat`);
  `.encode()` is modelled by an explicit UTF-8 encoder producing byte lists.
- Python floats (`time.time()`, USD costs) are modelled as rationals (`ℚ`).
- Calendar-date strings (`datetime.now().strftime("%Y-%m-%d")`), which the code
  only ever compares for equality, are modelled as an abstract day stamp `ℕ`.
- Python dicts are modelled as `key → Option value` maps; every method of
  `rate_limiter.RateLimiter` (and the module-level dedup table of `bot.py`)
  is state-passing: it takes the state and returns its result together with
  the state it leaves behind.
- `hashlib.md5(...).hexdigest()` is implemented in full (RFC 1321) on byte
  lists, with 32-bit words as `Nat` reduced `% 2^32`.
-/
import Mathlib

namespace TBrain

/-- A Python string: list of Unicode code points. -/
abbrev Str := List Nat

/-- Functional update of a dict-as-map (assignment `m[k] = v`, or deletion
when `v = none`). -/
def mapUpdate {α β : Type} [DecidableEq α] (m : α → Option β) (k : α) (v : Option β) :
    α → Option β :=
  fun x => if x = k then v else m x

/-- Whitespace test used by Python `str.strip()` (ASCII whitespace; the code
only ever strips ordinary spaces around questions). -/
def pyIsSpace (c : Nat) : Bool :=
  c == 32 || c == 9 || c == 10 || c == 13 || c == 11 || c == 12

/-- One character of Python `str.lower()` (ASCII case folding; the questions
handled by the bot are ASCII commands). -/
def pyLowerChar (c : Nat) : Nat :=
  if 65 ≤ c ∧ c ≤ 90 then c + 32 else c

/-- Python `str.strip()`: drop whitespace from both ends. -/
def pyStrip (s : Str) : Str :=
  ((s.dropWhile pyIsSpace).reverse.dropWhile pyIsSpace).reverse

/-- Python `str.lower()`. -/
def pyLower (s : Str) : Str := s.map pyLowerChar

/-- `question.strip().lower()` — the cache-key normalization of
`RateLimiter._cache_key`. -/
def normalizeQ (q : Str) : Str := pyLower (pyStrip q)

/-- Little-endian decimal digits of `n` as character codes, with `fuel`
(structural recursion; `fuel ≥ n` suffices). -/
def natReprAux : Nat → Nat → List Nat
  | 0, _ => []
  | _ + 1, 0 => []
  | fuel + 1, n + 1 => (48 + (n + 1) % 10) :: natReprAux fuel ((n + 1) / 10)

/-- Python `str(n)` for a nonnegative integer (decimal, most significant
digit first). -/
def natRepr (n : Nat) : Str :=
  if n = 0 then [48] else (natReprAux n n).reverse

/-- UTF-8 encoding of one code point. -/
def utf8Char (c : Nat) : List Nat :=
  if c < 128 then [c]
  else if c < 2048 then [192 + c / 64, 128 + c % 64]
  else if c < 65536 then [224 + c / 4096, 128 + c / 64 % 64, 128 + c % 64]
  else [240 + c / 262144, 128 + c / 4096 % 64, 128 + c / 64 % 64, 128 + c % 64]

/-- Python `str.encode()` (UTF-8), producing a byte list. -/
def utf8 (s : Str) : List Nat := (s.map utf8Char).flatten

/-! ### MD5 (RFC 1321) over byte lists, 32-bit words as `Nat % 2^32` -/

/-- `2^32`. -/
def w32 : Nat := 4294967296

/-- 32-bit bitwise complement. -/
def bnot32 (x : Nat) : Nat := 4294967295 ^^^ x

/-- 32-bit left rotation. -/
def rotl (x s : Nat) : Nat := ((x <<< s) ||| (x >>> (32 - s))) % w32

/-- The 64 MD5 sine-derived constants. -/
def md5K : List Nat :=
  [0xd76aa478, 0xe8c7b756, 0x242070db, 0xc1bdceee,
   0xf57c0faf, 0x4787c62a, 0xa8304613, 0xfd469501,
   0x698098d8, 0x8b44f7af, 0xffff5bb1, 0x895cd7be,
   0x6b901122, 0xfd987193, 0xa679438e, 0x49b40821,
   0xf61e2562, 0xc040b340, 0x265e5a51, 0xe9b6c7aa,
   0xd62f105d, 0x02441453, 0xd8a1e681, 0xe7d3fbc8,
   0x21e1cde6, 0xc33707d6, 0xf4d50d87, 0x455a14ed,
   0xa9e3e905, 0xfcefa3f8, 0x676f02d9, 0x8d2a4c8a,
   0xfffa3942, 0x8771f681, 0x6d9d6122, 0xfde5380c,
   0xa4beea44, 0x4bdecfa9, 0xf6bb4b60, 0xbebfbc70,
   0x289b7ec6, 0xeaa127fa, 0xd4ef3085, 0x04881d05,
   0xd9d4d039, 0xe6db99e5, 0x1fa27cf8, 0xc4ac5665,
   0xf4292244, 0x432aff97, 0xab9423a7, 0xfc93a039,
   0x655b59c3, 0x8f0ccc92, 0xffeff47d, 0x85845dd1,
   0x6fa87e4f, 0xfe2ce6e0, 0xa3014314, 0x4e0811a1,
   0xf7537e82, 0xbd3af235, 0x2ad7d2bb, 0xeb86d391]

/-- The 64 MD5 per-round shift amounts. -/
def md5S : List Nat :=
  [7, 12, 17, 22, 7, 12, 17, 22, 7, 12, 17, 22, 7, 12, 17, 22,
   5, 9, 14, 20, 5, 9, 14, 20, 5, 9, 14, 20, 5, 9, 14, 20,
   4, 11, 16, 23, 4, 11, 16, 23, 4, 11, 16, 23, 4, 11, 16, 23,
   6, 10, 15, 21, 6, 10, 15, 21, 6, 10, 15, 21, 6, 10, 15, 21]

/-- Little-endian 32-bit word `g` of a 64-byte block. -/
def md5M (blk : List Nat) (g : Nat) : Nat :=
  blk.getD (4 * g) 0 + 256 * blk.getD (4 * g + 1) 0 +
    65536 * blk.getD (4 * g + 2) 0 + 16777216 * blk.getD (4 * g + 3) 0

/-- One of the 64 MD5 steps. -/
def md5Step (blk : List Nat) (st : Nat × Nat × Nat × Nat) (i : Nat) :
    Nat × Nat × Nat × Nat :=
  let a := st.1
  let b := st.2.1
  let c := st.2.2.1
  let d := st.2.2.2
  let f :=
    if i < 16 then (b &&& c) ||| (bnot32 b &&& d)
    else if i < 32 then (d &&& b) ||| (bnot32 d &&& c)
    else if i < 48 then b ^^^ c ^^^ d
    else c ^^^ (b ||| bnot32 d)
  let g :=
    if i < 16 then i
    else if i < 32 then (5 * i + 1) % 16
    else if i < 48 then (3 * i + 5) % 16
    else (7 * i) % 16
  let nb := (b + rotl ((a + f + md5K.getD i 0 + md5M blk g) % w32) (md5S.getD i 0)) % w32
  (d, nb, b, c)

/-- Process one 64-byte block: 64 steps, then add into the running state. -/
def md5Block (h : Nat × Nat × Nat × Nat) (blk : List Nat) : Nat × Nat × Nat × Nat :=
  let f := (List.range 64).foldl (md5Step blk) h
  ((h.1 + f.1) % w32, (h.2.1 + f.2.1) % w32,
   (h.2.2.1 + f.2.2.1) % w32, (h.2.2.2 + f.2.2.2) % w32)

/-- MD5 padding: `0x80`, zeros to 56 mod 64, then the 64-bit little-endian
bit length. -/
def md5Pad (msg : List Nat) : List Nat :=
  let L := msg.length
  msg ++ 128 :: List.replicate ((120 - (L + 1) % 64) % 64) 0 ++
    (List.range 8).map (fun i => 8 * L / 256 ^ i % 256)

/-- Split a padded message into 64-byte blocks. -/
def md5Chunks (p : List Nat) : List (List Nat) :=
  (List.range (p.length / 64)).map (fun i => (p.drop (64 * i)).take 64)

/-- The 128-bit MD5 digest of a byte list, as the little-endian value of its
16 digest bytes. -/
def md5Digest (msg : List Nat) : Nat :=
  let f := (md5Chunks (md5Pad msg)).foldl md5Block
    (0x67452301, 0xefcdab89, 0x98badcfe, 0x10325476)
  f.1 + w32 * f.2.1 + w32 ^ 2 * f.2.2.1 + w32 ^ 3 * f.2.2.2

/-- One lowercase hex character. -/
def hexChar (n : Nat) : Nat := if n < 10 then 48 + n else 87 + n

/-- Render a 128-bit digest as the 32-character lowercase hex string that
`hexdigest()` returns (digest bytes in little-endian value order, each byte
high nibble first). -/
def hexRender (d : Nat) : Str :=
  ((List.range 16).map
    (fun i => [hexChar (d / 256 ^ i % 256 / 16), hexChar (d / 256 ^ i % 256 % 16)])).flatten

/-- `hashlib.md5(msg).hexdigest()`. -/
def md5Hex (msg : List Nat) : Str := hexRender (md5Digest msg)

/-! ### `rate_limiter.RateLimiter` -/

/-- The result dict returned by `ask_handler.ask_vault` and stored in the
query cache: `{"answer", "cost_usd", "model", "usage"}` (usage summarised by
its two token counts). As a nonempty dict it is always truthy in Python. -/
structure QResult where
  answer : Str
  cost : ℚ
  modelName : Str
  usageIn : Nat
  usageOut : Nat
deriving DecidableEq

/-- The mutable state of a `RateLimiter` instance (constructor arguments and
the four dicts created in `__init__`). -/
structure RL where
  cooldown : ℚ
  budget : ℚ
  ttl : ℚ
  lastQuery : Nat → Option ℚ
  dailySpend : Nat → Option ℚ
  spendDates : Nat → Option Nat
  cache : Str → Option (QResult × ℚ)

/-- Python `int()` on a float/rational: truncation toward zero. -/
def pyInt (q : ℚ) : ℤ := if q < 0 then ⌈q⌉ else ⌊q⌋

/-- `RateLimiter.check_rate_limit(user_id)` at wall-clock time `now`.
Returns `((allowed, wait_seconds_message), new_state)`; the denial message
`f"Please wait {wait_time}s ..."` is modelled by the wait time it carries.
(The source writes the timestamp once after the `if` block; the two allowed
branches here are that single fall-through write.) -/
def checkRateLimit (u : Nat) (now : ℚ) (s : RL) : (Bool × Option ℤ) × RL :=
  match s.lastQuery u with
  | some last =>
    if now - last < s.cooldown then
      ((false, some (pyInt (s.cooldown - (now - last)))), s)
    else
      ((true, none), { s with lastQuery := mapUpdate s.lastQuery u (some now) })
  | none => ((true, none), { s with lastQuery := mapUpdate s.lastQuery u (some now) })

/-- The `# Reset if new day` block shared by `check_budget` and
`record_spend`. -/
def rolloverIfNewDay (u today : Nat) (s : RL) : RL :=
  if s.spendDates u ≠ some today then
    { s with dailySpend := mapUpdate s.dailySpend u (some 0),
             spendDates := mapUpdate s.spendDates u (some today) }
  else s

/-- `RateLimiter.check_budget(user_id)` on calendar day `today`. -/
def checkBudget (u today : Nat) (s : RL) : Bool × RL :=
  let s1 := rolloverIfNewDay u today s
  let cur := (s1.dailySpend u).getD 0
  if s.budget ≤ cur then (false, s1) else (true, s1)

/-- `RateLimiter.record_spend(user_id, cost_usd)` on calendar day `today`. -/
def recordSpend (u today : Nat) (cost : ℚ) (s : RL) : RL :=
  let s1 := rolloverIfNewDay u today s
  { s1 with dailySpend := mapUpdate s1.dailySpend u (some ((s1.dailySpend u).getD 0 + cost)) }

/-- `RateLimiter.get_daily_spend(user_id)` on calendar day `today`; the
method performs no assignment, so it leaves the state exactly as received. -/
def getDailySpend (u today : Nat) (s : RL) : ℚ × RL :=
  (if s.spendDates u ≠ some today then 0 else (s.dailySpend u).getD 0, s)

/-- `RateLimiter.get_remaining_budget(user_id)` on calendar day `today`. -/
def getRemainingBudget (u today : Nat) (s : RL) : ℚ × RL :=
  (max 0 (s.budget - (getDailySpend u today s).1), s)

/-- The daily spend the ledger reports for `u` on day `today` (the value of
`get_daily_spend`). -/
def observedSpend (u today : Nat) (s : RL) : ℚ := (getDailySpend u today s).1

/-- The pre-hash cache-key string `f"{user_id}:{normalized}"` of
`RateLimiter._cache_key`. -/
def cacheKeyStr (u : Nat) (q : Str) : Str := natRepr u ++ 58 :: normalizeQ q

/-- `RateLimiter._cache_key(user_id, question)`. -/
def cacheKey (u : Nat) (q : Str) : Str := md5Hex (utf8 (cacheKeyStr u q))

/-- `RateLimiter.get_cached_result(user_id, question)` at time `now`. -/
def getCachedResult (u : Nat) (q : Str) (now : ℚ) (s : RL) : Option QResult × RL :=
  match s.cache (cacheKey u q) with
  | none => (none, s)
  | some (r, ts) =>
    if s.ttl < now - ts then
      (none, { s with cache := mapUpdate s.cache (cacheKey u q) none })
    else (some r, s)

/-- `RateLimiter.cache_result(user_id, question, result)` at time `now`. -/
def cacheResult (u : Nat) (q : Str) (r : QResult) (now : ℚ) (s : RL) : RL :=
  { s with cache := mapUpdate s.cache (cacheKey u q) (some (r, now)) }

/-! ### `bot.py`: message deduplication -/

/-- The module-level `_message_hashes` dict. -/
abbrev DMap := Str → Option ℚ

/-- `bot.DEDUP_WINDOW_SECONDS` (5 minutes). -/
def DEDUP_WINDOW_SECONDS : ℚ := 300

/-- `bot._hash_message(content, timestamp)`:
`hashlib.md5(f"{content}:{timestamp}".encode()).hexdigest()`. -/
def hashMessage (c : Str) (t : Nat) : Str := md5Hex (utf8 (c ++ 58 :: natRepr t))

/-- The `# Clean old hashes` sweep of `bot.is_duplicate_message`: delete every
entry older than the dedup window relative to wall-clock `now`. -/
def purgeHashes (now : ℚ) (m : DMap) : DMap :=
  fun h =>
    match m h with
    | some ts => if DEDUP_WINDOW_SECONDS < now - ts then none else some ts
    | none => none

/-- `bot.is_duplicate_message(content, timestamp)` at wall-clock time `now`,
over the module-level hash table `m`. -/
def isDuplicateMessage (c : Str) (t : Nat) (now : ℚ) (m : DMap) : Bool × DMap :=
  let m1 := purgeHashes now m
  match m1 (hashMessage c t) with
  | some _ => (true, m1)
  | none => (false, mapUpdate m1 (hashMessage c t) (some now))

/-! ### `bot._handle_vault_query`: the query orchestrator -/

/-- Outcome of the external engine call `ask_vault` (an opaque capability:
either a result dict or a raised exception carrying its message). -/
inductive EngineResult where
  | ok (r : QResult)
  | fail (emsg : Str)

/-- The reply the handler sends, modelled structurally (emoji prefixes and
markdown footers are presentation and carry no extra state). -/
inductive Reply where
  | usageMsg
  | rateLimited (w : Option ℤ)
  | budgetExceeded
  | cachedAnswer (text : Str)
  | answered (text : Str)
  | errorReply (msg : Str)
deriving DecidableEq

/-- The `if len(response) > 3900` truncation applied to answers. -/
def pyTruncate (t : Str) : Str := if 3900 < t.length then t.take 3900 else t

/-- `question = " ".join(context.args) if context.args else ""`. -/
def pyQuestion (args : List Str) : Str :=
  if args = [] then [] else List.intercalate [32] args

/-- `bot._handle_vault_query` for an authorized sender: argument parsing,
rate check, budget check, cache check, engine call, spend recording and
result caching. Returns `(reply, final rate-limiter state, number of engine
invocations)`. -/
def handleVaultQuery (args : List Str) (u : Nat) (now : ℚ) (today : Nat)
    (eng : EngineResult) (s : RL) : Reply × RL × Nat :=
  if pyQuestion args = [] then (Reply.usageMsg, s, 0)
  else
    let cr := checkRateLimit u now s
    if cr.1.1 = false then (Reply.rateLimited cr.1.2, cr.2, 0)
    else
      let cb := checkBudget u today cr.2
      if cb.1 = false then (Reply.budgetExceeded, cb.2, 0)
      else
      let co := getCachedResult u (pyQuestion args) now cb.2
      match co.1 with
      | some r => (Reply.cachedAnswer (pyTruncate r.answer), co.2, 0)
      | none =>
        match eng with
        | EngineResult.fail e => (Reply.errorReply (e.take 200), co.2, 1)
        | EngineResult.ok r =>
          let s4 := recordSpend u today r.cost co.2
          let s5 := cacheResult u (pyQuestion args) r now s4
          (Reply.answered (pyTruncate r.answer), s5, 1)

/-! ### Budget-ledger operation sequences (for the day-scoped invariants) -/

/-- One budget-ledger operation. -/
inductive BudgetOp where
  | check
  | record (c : ℚ)
  | getSpend
  | getRemaining
deriving DecidableEq

/-- The cost a ledger operation records (zero for the non-recording ones). -/
def opCost : BudgetOp → ℚ
  | BudgetOp.record c => c
  | _ => 0

/-- Run one ledger operation for user `u` on day `today`, keeping the state. -/
def applyBudgetOp (u today : Nat) (s : RL) : BudgetOp → RL
  | BudgetOp.check => (checkBudget u today s).2
  | BudgetOp.record c => recordSpend u today c s
  | BudgetOp.getSpend => (getDailySpend u today s).2
  | BudgetOp.getRemaining => (getRemainingBudget u today s).2

/-- Run a sequence of ledger operations. -/
def applyBudgetOps (u today : Nat) (s : RL) (ops : List BudgetOp) : RL :=
  ops.foldl (applyBudgetOp u today) s

/-! ### Concrete sample values (used to instantiate the theorems) -/

/-- Decode a little-endian list of decimal digit characters (inverse of
`natReprAux`, used to prove `natRepr` injective). -/
def decodeLE (l : List Nat) : Nat := l.foldr (fun c acc => acc * 10 + (c - 48)) 0

/-- A fresh `RateLimiter(cooldown_seconds=30, daily_budget_usd=1.00,
cache_ttl_seconds=300)` (the constructor defaults), no recorded activity. -/
def emptyRL : RL :=
  { cooldown := 30, budget := 1, ttl := 300,
    lastQuery := fun _ => none, dailySpend := fun _ => none,
    spendDates := fun _ => none, cache := fun _ => none }

/-- A limiter that admitted user 7 at time 0. -/
def c1State : RL := { emptyRL with lastQuery := mapUpdate emptyRL.lastQuery 7 (some 0) }

/-- A limiter holding a spend of 5 for user 7 recorded under day stamp 1. -/
def staleState : RL :=
  { emptyRL with dailySpend := mapUpdate emptyRL.dailySpend 7 (some 5),
                 spendDates := mapUpdate emptyRL.spendDates 7 (some 1) }

/-- A sample engine result dict. -/
def c4Result : QResult :=
  { answer := [104, 105], cost := 1 / 100, modelName := [], usageIn := 1, usageOut := 2 }

/-- A limiter caching `c4Result` for user 3, question `"foo"`, at time 0. -/
def c4State : RL :=
  { emptyRL with cache := mapUpdate emptyRL.cache (cacheKey 3 [102, 111, 111]) (some (c4Result, 0)) }

/-- A limiter caching `c4Result` for user 7, question `"foo"`, at time 0. -/
def c7State : RL :=
  { emptyRL with cache := mapUpdate emptyRL.cache (cacheKey 7 [102, 111, 111]) (some (c4Result, 0)) }

/-- A dedup table holding one stale entry. -/
def c6Map : DMap := mapUpdate (fun _ => none) [99] (some (-400))

/-! ### Helper lemmas -/

theorem mapUpdate_same {α β : Type} [DecidableEq α] (m : α → Option β) (k : α) (v : Option β) :
    mapUpdate m k v k = v := by
  simp [mapUpdate]

theorem mapUpdate_other {α β : Type} [DecidableEq α] (m : α → Option β) (k x : α)
    (v : Option β) (h : x ≠ k) : mapUpdate m k v x = m x := by
  simp [mapUpdate, h]

theorem decodeLE_cons (c : Nat) (l : List Nat) :
    decodeLE (c :: l) = decodeLE l * 10 + (c - 48) := rfl

theorem decodeLE_natReprAux : ∀ fuel n : Nat, n ≤ fuel → decodeLE (natReprAux fuel n) = n := by
  intro fuel
  induction fuel with
  | zero =>
    intro n hn
    have : n = 0 := by omega
    subst this; rfl
  | succ f ih =>
    intro n hn
    match n with
    | 0 => rfl
    | k + 1 =>
      have hdiv : (k + 1) / 10 < k + 1 := Nat.div_lt_self (Nat.succ_pos k) (by norm_num)
      rw [natReprAux, decodeLE_cons, ih ((k + 1) / 10) (by omega)]
      have := Nat.div_add_mod (k + 1) 10
      omega

theorem natRepr_inj {a b : Nat} (h : natRepr a = natRepr b) : a = b := by
  unfold natRepr at h
  by_cases ha : a = 0 <;> by_cases hb : b = 0
  · omega
  · exfalso
    rw [if_pos ha, if_neg hb] at h
    have h2 : natReprAux b b = [48] := by
      have := congrArg List.reverse h
      simpa using this.symm
    have h3 := decodeLE_natReprAux b b le_rfl
    rw [h2] at h3
    simp [decodeLE] at h3
    exact hb h3.symm
  · exfalso
    rw [if_neg ha, if_pos hb] at h
    have h2 : natReprAux a a = [48] := by
      have := congrArg List.reverse h
      simpa using this
    have h3 := decodeLE_natReprAux a a le_rfl
    rw [h2] at h3
    simp [decodeLE] at h3
    exact ha h3.symm
  · rw [if_neg ha, if_neg hb] at h
    have h2 := List.reverse_injective h
    have h3 := decodeLE_natReprAux a a le_rfl
    have h4 := decodeLE_natReprAux b b le_rfl
    rw [h2, h4] at h3
    exact h3.symm

theorem natReprAux_lt : ∀ (fuel n c : Nat), c ∈ natReprAux fuel n → c < 58 := by
  intro fuel
  induction fuel with
  | zero => intro n c hc; simp [natReprAux] at hc
  | succ f ih =>
    intro n c hc
    match n with
    | 0 => simp [natReprAux] at hc
    | k + 1 =>
      rw [natReprAux] at hc
      rcases List.mem_cons.mp hc with h | h
      · have : (k + 1) % 10 < 10 := Nat.mod_lt _ (by norm_num)
        omega
      · exact ih _ _ h

theorem natRepr_no_colon (n : Nat) : 58 ∉ natRepr n := by
  unfold natRepr
  split
  · simp
  · intro hmem
    rw [List.mem_reverse] at hmem
    exact absurd (natReprAux_lt n n 58 hmem) (by norm_num)

theorem colon_split : ∀ (l1 l2 r1 r2 : Str), 58 ∉ l1 → 58 ∉ l2 →
    l1 ++ 58 :: r1 = l2 ++ 58 :: r2 → l1 = l2 ∧ r1 = r2 := by
  intro l1
  induction l1 with
  | nil =>
    intro l2 r1 r2 _ h2 heq
    match l2 with
    | [] => simpa using heq
    | y :: ys =>
      simp only [List.nil_append, List.cons_append, List.cons.injEq] at heq
      exact absurd (heq.1 ▸ List.mem_cons_self y ys) (heq.1 ▸ h2)
  | cons x xs ih =>
    intro l2 r1 r2 h1 h2 heq
    match l2 with
    | [] =>
      simp only [List.cons_append, List.nil_append, List.cons.injEq] at heq
      exact absurd (heq.1 ▸ List.mem_cons_self x xs) (fun hx => h1 (heq.1 ▸ hx))
    | y :: ys =>
      simp only [List.cons_append, List.cons.injEq] at heq
      obtain ⟨hxy, htail⟩ := heq
      have h1' : 58 ∉ xs := fun hm => h1 (List.mem_cons_of_mem x hm)
      have h2' : 58 ∉ ys := fun hm => h2 (List.mem_cons_of_mem y hm)
      obtain ⟨ha, hb⟩ := ih ys r1 r2 h1' h2' htail
      exact ⟨by rw [hxy, ha], hb⟩

theorem cacheKeyStr_iff (u1 u2 : Nat) (q1 q2 : Str) :
    cacheKeyStr u1 q1 = cacheKeyStr u2 q2 ↔ (u1 = u2 ∧ normalizeQ q1 = normalizeQ q2) := by
  constructor
  · intro h
    obtain ⟨ha, hb⟩ :=
      colon_split (natRepr u1) (natRepr u2) (normalizeQ q1) (normalizeQ q2)
        (natRepr_no_colon u1) (natRepr_no_colon u2) h
    exact ⟨natRepr_inj ha, hb⟩
  · rintro ⟨rfl, h⟩
    unfold cacheKeyStr
    rw [h]

theorem md5Block_lt (h : Nat × Nat × Nat × Nat) (blk : List Nat) :
    (md5Block h blk).1 < w32 ∧ (md5Block h blk).2.1 < w32 ∧
    (md5Block h blk).2.2.1 < w32 ∧ (md5Block h blk).2.2.2 < w32 := by
  refine ⟨?_, ?_, ?_, ?_⟩ <;> exact Nat.mod_lt _ (by norm_num [w32])

theorem foldl_md5Block_lt : ∀ (l : List (List Nat)) (h : Nat × Nat × Nat × Nat),
    h.1 < w32 → h.2.1 < w32 → h.2.2.1 < w32 → h.2.2.2 < w32 →
    (l.foldl md5Block h).1 < w32 ∧ (l.foldl md5Block h).2.1 < w32 ∧
    (l.foldl md5Block h).2.2.1 < w32 ∧ (l.foldl md5Block h).2.2.2 < w32 := by
  intro l
  induction l with
  | nil => intro h h1 h2 h3 h4; exact ⟨h1, h2, h3, h4⟩
  | cons b bl ih =>
    intro h _ _ _ _
    rw [List.foldl_cons]
    obtain ⟨g1, g2, g3, g4⟩ := md5Block_lt h b
    exact ih (md5Block h b) g1 g2 g3 g4

theorem digest_combine_lt (a b c d : Nat) (ha : a < w32) (hb : b < w32)
    (hc : c < w32) (hd : d < w32) :
    a + w32 * b + w32 ^ 2 * c + w32 ^ 3 * d < 340282366920938463463374607431768211456 := by
  simp only [w32] at ha hb hc hd ⊢
  norm_num
  omega

theorem md5Digest_lt (msg : List Nat) :
    md5Digest msg < 340282366920938463463374607431768211456 := by
  unfold md5Digest
  obtain ⟨h1, h2, h3, h4⟩ :=
    foldl_md5Block_lt (md5Chunks (md5Pad msg))
      (0x67452301, 0xefcdab89, 0x98badcfe, 0x10325476)
      (by norm_num [w32]) (by norm_num [w32]) (by norm_num [w32]) (by norm_num [w32])
  exact digest_combine_lt _ _ _ _ h1 h2 h3 h4

theorem normalizeQ_replicate (k : Nat) :
    normalizeQ (List.replicate k 97) = List.replicate k 97 := by
  have hdrop : (List.replicate k 97).dropWhile pyIsSpace = List.replicate k 97 := by
    cases k with
    | zero => rfl
    | succ n =>
      rw [List.replicate_succ, List.dropWhile_cons]
      norm_num [pyIsSpace]
  unfold normalizeQ pyStrip pyLower
  rw [hdrop, List.reverse_replicate, hdrop, List.reverse_replicate, List.map_replicate]
  norm_num [pyLowerChar]

/-! ### Lemmas about the rate limiter and budget ledger operations -/

theorem checkRateLimit_denied_state (u : Nat) (now : ℚ) (s : RL)
    (h : (checkRateLimit u now s).1.1 = false) : (checkRateLimit u now s).2 = s := by
  unfold checkRateLimit at h ⊢
  cases hq : s.lastQuery u with
  | none => simp [hq] at h
  | some last =>
    simp only [hq] at h ⊢
    by_cases hlt : now - last < s.cooldown
    · rw [if_pos hlt]
    · rw [if_neg hlt] at h; simp at h

theorem checkRateLimit_frame (u : Nat) (now : ℚ) (s : RL) :
    (checkRateLimit u now s).2.dailySpend = s.dailySpend
    ∧ (checkRateLimit u now s).2.spendDates = s.spendDates
    ∧ (checkRateLimit u now s).2.cache = s.cache
    ∧ (checkRateLimit u now s).2.budget = s.budget := by
  unfold checkRateLimit
  rcases s.lastQuery u with _ | last
  · exact ⟨rfl, rfl, rfl, rfl⟩
  · by_cases hlt : now - last < s.cooldown
    · simp [hlt]
    · simp [hlt]

theorem rollover_dates (u d : Nat) (s : RL) :
    (rolloverIfNewDay u d s).spendDates u = some d := by
  unfold rolloverIfNewDay
  split
  · exact mapUpdate_same _ _ _
  · rename_i h
    rw [not_ne_iff] at h
    exact h

theorem rollover_budget (u d : Nat) (s : RL) :
    (rolloverIfNewDay u d s).budget = s.budget := by
  unfold rolloverIfNewDay; split <;> rfl

theorem rollover_cache (u d : Nat) (s : RL) :
    (rolloverIfNewDay u d s).cache = s.cache := by
  unfold rolloverIfNewDay; split <;> rfl

theorem checkBudget_state (u d : Nat) (s : RL) :
    (checkBudget u d s).2 = rolloverIfNewDay u d s := by
  simp only [checkBudget]
  split <;> rfl

theorem observed_rollover (u d : Nat) (s : RL) :
    observedSpend u d (rolloverIfNewDay u d s) = observedSpend u d s := by
  by_cases hst : s.spendDates u = some d
  · simp [rolloverIfNewDay, hst]
  · simp [observedSpend, getDailySpend, rolloverIfNewDay, hst, mapUpdate]

theorem observed_as_current (u d : Nat) (s : RL) :
    observedSpend u d s = ((rolloverIfNewDay u d s).dailySpend u).getD 0 := by
  rw [← observed_rollover u d s]
  simp [observedSpend, getDailySpend, rollover_dates u d s]

theorem observed_checkBudget (u d : Nat) (s : RL) :
    observedSpend u d ((checkBudget u d s).2) = observedSpend u d s := by
  rw [checkBudget_state, observed_rollover]

theorem observed_record (u d : Nat) (c : ℚ) (s : RL) :
    observedSpend u d (recordSpend u d c s) = observedSpend u d s + c := by
  rw [observed_as_current u d s]
  have hd := rollover_dates u d s
  simp [recordSpend, observedSpend, getDailySpend, mapUpdate, hd]

theorem observed_congr (u d : Nat) (s s' : RL) (h1 : s'.dailySpend = s.dailySpend)
    (h2 : s'.spendDates = s.spendDates) : observedSpend u d s' = observedSpend u d s := by
  simp [observedSpend, getDailySpend, h1, h2]

theorem checkBudget_true_iff (u d : Nat) (s : RL) :
    (checkBudget u d s).1 = true ↔ observedSpend u d s < s.budget := by
  have hcur : ((rolloverIfNewDay u d s).dailySpend u).getD 0 = observedSpend u d s :=
    (observed_as_current u d s).symm
  simp only [checkBudget]
  split
  · rename_i hb
    rw [hcur] at hb
    exact iff_of_false (by simp) (not_lt.mpr hb)
  · rename_i hb
    rw [hcur] at hb
    push_neg at hb
    exact iff_of_true rfl hb

theorem applyBudgetOp_budget (u d : Nat) (s : RL) (op : BudgetOp) :
    (applyBudgetOp u d s op).budget = s.budget := by
  cases op with
  | check => rw [applyBudgetOp, checkBudget_state, rollover_budget]
  | record c =>
    show ({ rolloverIfNewDay u d s with
      dailySpend := mapUpdate (rolloverIfNewDay u d s).dailySpend u
        (some (((rolloverIfNewDay u d s).dailySpend u).getD 0 + c)) } : RL).budget = s.budget
    rw [← rollover_budget u d s]
  | getSpend => rfl
  | getRemaining => rfl

theorem applyBudgetOps_budget (u d : Nat) : ∀ (l : List BudgetOp) (s : RL),
    (applyBudgetOps u d s l).budget = s.budget := by
  intro l
  induction l with
  | nil => intro s; rfl
  | cons op l ih =>
    intro s
    show (applyBudgetOps u d (applyBudgetOp u d s op) l).budget = s.budget
    rw [ih, applyBudgetOp_budget]

theorem observed_step_mono (u d : Nat) (s : RL) (op : BudgetOp) (h : 0 ≤ opCost op) :
    observedSpend u d s ≤ observedSpend u d (applyBudgetOp u d s op) := by
  cases op with
  | check => rw [applyBudgetOp, observed_checkBudget]
  | record c =>
    rw [applyBudgetOp, observed_record]
    have : (0 : ℚ) ≤ c := h
    linarith
  | getSpend => exact le_refl _
  | getRemaining => exact le_refl _

theorem observed_ops_mono (u d : Nat) : ∀ (l : List BudgetOp) (s : RL),
    (∀ op ∈ l, 0 ≤ opCost op) →
    observedSpend u d s ≤ observedSpend u d (applyBudgetOps u d s l) := by
  intro l
  induction l with
  | nil => intro s _; exact le_refl _
  | cons op l ih =>
    intro s hc
    have h1 := observed_step_mono u d s op (hc op (List.mem_cons_self op l))
    have h2 := ih (applyBudgetOp u d s op) (fun o ho => hc o (List.mem_cons_of_mem op ho))
    exact le_trans h1 h2

theorem applyBudgetOps_append (u d : Nat) (s : RL) (l1 l2 : List BudgetOp) :
    applyBudgetOps u d s (l1 ++ l2) = applyBudgetOps u d (applyBudgetOps u d s l1) l2 := by
  simp [applyBudgetOps, List.foldl_append]

/-! ### Lemmas about the cache -/

theorem getCachedResult_some_state (u : Nat) (q : Str) (now : ℚ) (s : RL) (r : QResult)
    (h : (getCachedResult u q now s).1 = some r) : (getCachedResult u q now s).2 = s := by
  unfold getCachedResult at h ⊢
  rcases hm : s.cache (cacheKey u q) with _ | ⟨rr, ts⟩
  · rfl
  · rw [hm] at h
    by_cases hexp : s.ttl < now - ts
    · simp [hexp] at h
    · simp [hexp]

/-! ### C1: cooldown admission check -/

/-- C1 counterexample: at cooldown 30 with a query recorded at time 0, a new
attempt at time 1/2 is denied with wait time `int(30 - 0.5) = 29`, whereas the
claim demands `ceil(30 - 0.5) = 30`; so the claimed wait formula is false at
this input. -/
theorem c1_counterexample :
    (checkRateLimit 7 (1 / 2) c1State).1 = (false, some 29)
    ∧ ⌈c1State.cooldown - ((1 / 2 : ℚ) - 0)⌉ = 30
    ∧ (29 : ℤ) ≠ 30 := by
  refine ⟨?_, ?_, by decide⟩
  · have h : c1State.lastQuery 7 = some 0 := rfl
    have hc : c1State.cooldown = 30 := rfl
    unfold checkRateLimit
    simp only [h, hc]
    norm_num [pyInt]
  · have hc : c1State.cooldown = 30 := rfl
    rw [hc, Int.ceil_eq_iff]
    norm_num

/-- C1 (amended): if the user has no prior cooldown record, or
`now - last >= cooldown`, the check records `now` and returns Allowed;
otherwise it returns Denied carrying `wait = int(cooldown - elapsed)` — the
integer truncation (equal to the floor, as the quantity is positive), not the
ceiling — and leaves the state unchanged. -/
theorem c1_rate_limit (s : RL) (u : Nat) (now last : ℚ) :
    (s.lastQuery u = none →
      checkRateLimit u now s =
        ((true, none), { s with lastQuery := mapUpdate s.lastQuery u (some now) }))
    ∧ (s.lastQuery u = some last → s.cooldown ≤ now - last →
      checkRateLimit u now s =
        ((true, none), { s with lastQuery := mapUpdate s.lastQuery u (some now) }))
    ∧ (s.lastQuery u = some last → now - last < s.cooldown →
      checkRateLimit u now s = ((false, some ⌊s.cooldown - (now - last)⌋), s)) := by
  refine ⟨fun h => ?_, fun h h2 => ?_, fun h h2 => ?_⟩
  · unfold checkRateLimit
    rw [h]
  · unfold checkRateLimit
    simp only [h]
    rw [if_neg (not_lt.mpr h2)]
  · unfold checkRateLimit
    simp only [h]
    rw [if_pos h2]
    have hfl : pyInt (s.cooldown - (now - last)) = ⌊s.cooldown - (now - last)⌋ := by
      unfold pyInt
      rw [if_neg (by linarith : ¬ s.cooldown - (now - last) < 0)]
    rw [hfl]

/-- C1 witness: the amended theorem applied at concrete inputs (a denial at
elapsed 1/2 under cooldown 30, and a first-time admission). -/
theorem c1_witness :
    (c1State.lastQuery 7 = some 0 ∧ (1 / 2 : ℚ) - 0 < c1State.cooldown
      ∧ checkRateLimit 7 (1 / 2) c1State
          = ((false, some ⌊c1State.cooldown - ((1 / 2 : ℚ) - 0)⌋), c1State))
    ∧ (emptyRL.lastQuery 9 = none
      ∧ checkRateLimit 9 2 emptyRL
          = ((true, none), { emptyRL with lastQuery := mapUpdate emptyRL.lastQuery 9 (some 2) })) := by
  refine ⟨⟨rfl, by norm_num [c1State, emptyRL], ?_⟩, rfl, ?_⟩
  · exact (c1_rate_limit c1State 7 (1 / 2) 0).2.2 rfl (by norm_num [c1State, emptyRL])
  · exact (c1_rate_limit emptyRL 9 2 0).1 rfl

/-! ### C2: day-scoped budget invariants -/

/-- C2 counterexample: `record_spend` does not validate its cost argument, so
recording a negative cost drives the accumulated spend from 0 to -1 — the
spend is neither monotone nor nonnegative over arbitrary operation
sequences. -/
theorem c2_counterexample :
    observedSpend 7 1 emptyRL = 0
    ∧ observedSpend 7 1 (recordSpend 7 1 (-1) emptyRL) = -1
    ∧ ((-1 : ℚ) < 0) := by
  refine ⟨?_, ?_, by norm_num⟩
  · simp [observedSpend, getDailySpend, emptyRL]
  · simp [observedSpend, getDailySpend, recordSpend, rolloverIfNewDay, emptyRL, mapUpdate]

/-- C2 (amended): within a single day (all operations under one day stamp),
starting from a state with nonnegative reported spend and recording only
nonnegative costs, the reported spend stays nonnegative and is monotone
along the sequence; the budget check answers Allowed exactly while spend <
budget, and once it answers Denied it stays Denied for the rest of the
day. -/
theorem c2_budget_monotone (u d : Nat) (s : RL) (l1 l2 : List BudgetOp)
    (h0 : 0 ≤ observedSpend u d s)
    (hc : ∀ op ∈ l1 ++ l2, 0 ≤ opCost op) :
    0 ≤ observedSpend u d (applyBudgetOps u d s l1)
    ∧ observedSpend u d (applyBudgetOps u d s l1)
        ≤ observedSpend u d (applyBudgetOps u d s (l1 ++ l2))
    ∧ ((checkBudget u d (applyBudgetOps u d s l1)).1 = true ↔
        observedSpend u d (applyBudgetOps u d s l1) < s.budget)
    ∧ ((checkBudget u d (applyBudgetOps u d s l1)).1 = false →
        (checkBudget u d (applyBudgetOps u d s (l1 ++ l2))).1 = false) := by
  have hc1 : ∀ op ∈ l1, 0 ≤ opCost op := fun op hop => hc op (List.mem_append_left _ hop)
  have hc2 : ∀ op ∈ l2, 0 ≤ opCost op := fun op hop => hc op (List.mem_append_right _ hop)
  have hm1 := observed_ops_mono u d l1 s hc1
  have hm2 := observed_ops_mono u d l2 (applyBudgetOps u d s l1) hc2
  rw [← applyBudgetOps_append] at hm2
  have hb1 := checkBudget_true_iff u d (applyBudgetOps u d s l1)
  rw [applyBudgetOps_budget] at hb1
  refine ⟨le_trans h0 hm1, hm2, hb1, fun hfalse => ?_⟩
  have hb2 := checkBudget_true_iff u d (applyBudgetOps u d s (l1 ++ l2))
  rw [applyBudgetOps_budget] at hb2
  have hnot : ¬ observedSpend u d (applyBudgetOps u d s l1) < s.budget := by
    intro hlt
    have := hb1.mpr hlt
    rw [hfalse] at this
    exact Bool.false_ne_true this
  have hnot2 : ¬ observedSpend u d (applyBudgetOps u d s (l1 ++ l2)) < s.budget :=
    fun hlt2 => hnot (lt_of_le_of_lt hm2 hlt2)
  rcases Bool.eq_false_or_eq_true ((checkBudget u d (applyBudgetOps u d s (l1 ++ l2))).1)
    with hx | hx
  · exact absurd (hb2.mp hx) hnot2
  · exact hx

/-- C2 witness: the amended theorem applied to a concrete operation sequence
(record 0.5, check, then record 1, read) on a fresh limiter with budget 1. -/
theorem c2_witness :
    (0 ≤ observedSpend 7 1 emptyRL)
    ∧ (∀ op ∈ ([BudgetOp.record (1 / 2), BudgetOp.check] ++
          [BudgetOp.record 1, BudgetOp.getSpend]), 0 ≤ opCost op)
    ∧ (0 ≤ observedSpend 7 1 (applyBudgetOps 7 1 emptyRL [BudgetOp.record (1 / 2), BudgetOp.check])
    ∧ observedSpend 7 1 (applyBudgetOps 7 1 emptyRL [BudgetOp.record (1 / 2), BudgetOp.check])
        ≤ observedSpend 7 1 (applyBudgetOps 7 1 emptyRL
            ([BudgetOp.record (1 / 2), BudgetOp.check] ++ [BudgetOp.record 1, BudgetOp.getSpend]))
    ∧ ((checkBudget 7 1 (applyBudgetOps 7 1 emptyRL [BudgetOp.record (1 / 2), BudgetOp.check])).1 = true ↔
        observedSpend 7 1 (applyBudgetOps 7 1 emptyRL [BudgetOp.record (1 / 2), BudgetOp.check])
          < emptyRL.budget)
    ∧ ((checkBudget 7 1 (applyBudgetOps 7 1 emptyRL [BudgetOp.record (1 / 2), BudgetOp.check])).1 = false →
        (checkBudget 7 1 (applyBudgetOps 7 1 emptyRL
            ([BudgetOp.record (1 / 2), BudgetOp.check] ++ [BudgetOp.record 1, BudgetOp.getSpend]))).1
          = false)) :=
  ⟨by simp [observedSpend, getDailySpend, emptyRL],
   by intro op hop; fin_cases hop <;> norm_num [opCost],
   c2_budget_monotone 7 1 emptyRL [BudgetOp.record (1 / 2), BudgetOp.check]
     [BudgetOp.record 1, BudgetOp.getSpend]
     (by simp [observedSpend, getDailySpend, emptyRL])
     (by intro op hop; fin_cases hop <;> norm_num [opCost])⟩

/-! ### C3: lazy date rollover -/

/-- C3 counterexample: with a spend of 5 stored under day stamp 1,
`get_daily_spend` on day 2 leaves the stored epoch at 1 and the stored total
at 5 — it does not reset the total or update the epoch as the claim states
for every operation. -/
theorem c3_counterexample :
    (getDailySpend 7 2 staleState).2.spendDates 7 = some 1
    ∧ (getDailySpend 7 2 staleState).2.dailySpend 7 = some 5
    ∧ some (1 : Nat) ≠ some (2 : Nat)
    ∧ some (5 : ℚ) ≠ some (0 : ℚ) :=
  ⟨rfl, rfl, by decide, by simp⟩

/-- C3 (amended): on a stale epoch, `check_budget` and `record_spend` reset
the accumulated total to zero and update the stored epoch before proceeding;
`get_daily_spend` and `get_remaining_budget` do not write, but report 0
(respectively the full budget) — so spend recorded on day `d` followed by any
operation on a different day observes an accumulated spend that started at
0. -/
theorem c3_lazy_rollover (s : RL) (u d d2 : Nat) (c : ℚ) (h : s.spendDates u ≠ some d) :
    (checkBudget u d s).2.dailySpend u = some 0
    ∧ (checkBudget u d s).2.spendDates u = some d
    ∧ (recordSpend u d c s).dailySpend u = some c
    ∧ (recordSpend u d c s).spendDates u = some d
    ∧ getDailySpend u d s = (0, s)
    ∧ (0 ≤ s.budget → getRemainingBudget u d s = (s.budget, s))
    ∧ (d2 ≠ d → observedSpend u d2 (recordSpend u d c s) = 0) := by
  refine ⟨?_, ?_, ?_, ?_, ?_, ?_, ?_⟩
  · rw [checkBudget_state]
    simp [rolloverIfNewDay, h, mapUpdate]
  · rw [checkBudget_state, rollover_dates]
  · simp [recordSpend, rolloverIfNewDay, h, mapUpdate]
  · have hd := rollover_dates u d s
    simp [recordSpend, hd]
  · simp [getDailySpend, h]
  · intro hb
    simp [getRemainingBudget, getDailySpend, h]
    exact hb
  · intro hd2
    have hd := rollover_dates u d s
    have hne : d ≠ d2 := fun hh => hd2 hh.symm
    simp [observedSpend, getDailySpend, recordSpend, hd, hne]

/-- C3 witness: the amended theorem applied to a limiter holding spend 5
under day stamp 1, operated on day 2. -/
theorem c3_witness :
    (staleState.spendDates 7 ≠ some 2)
    ∧ ((checkBudget 7 2 staleState).2.dailySpend 7 = some 0
    ∧ (checkBudget 7 2 staleState).2.spendDates 7 = some 2
    ∧ (recordSpend 7 2 (1 / 4) staleState).dailySpend 7 = some (1 / 4)
    ∧ (recordSpend 7 2 (1 / 4) staleState).spendDates 7 = some 2
    ∧ getDailySpend 7 2 staleState = (0, staleState)
    ∧ (0 ≤ staleState.budget → getRemainingBudget 7 2 staleState = (staleState.budget, staleState))
    ∧ (3 ≠ 2 → observedSpend 7 3 (recordSpend 7 2 (1 / 4) staleState) = 0)) :=
  ⟨by decide, c3_lazy_rollover staleState 7 2 3 (1 / 4) (by decide)⟩

/-! ### C4: cache round trip and expire-on-read -/

/-- C4 (confirmed): storing a result and looking it up immediately returns
it (for a nonnegative TTL); and a lookup of an entry older than the TTL
returns nothing and deletes the entry. -/
theorem c4_cache_roundtrip (s : RL) (u : Nat) (q : Str) (r : QResult) (ts now : ℚ) :
    (0 ≤ s.ttl →
      (getCachedResult u q now (cacheResult u q r now s)).1 = some r)
    ∧ (s.cache (cacheKey u q) = some (r, ts) → s.ttl < now - ts →
      (getCachedResult u q now s).1 = none
      ∧ (getCachedResult u q now s).2.cache (cacheKey u q) = none) := by
  constructor
  · intro httl
    have hcond : ¬ s.ttl < 0 := not_lt.mpr httl
    simp [getCachedResult, cacheResult, mapUpdate_same, hcond]
  · intro hm hexp
    unfold getCachedResult
    rw [hm]
    simp [hexp, mapUpdate_same]

/-- C4 witness: the theorem applied to a fresh limiter (store then lookup at
time 1) and to a limiter whose entry of timestamp 0 is looked up at time
400 > TTL 300. -/
theorem c4_witness :
    (0 ≤ emptyRL.ttl
      ∧ (getCachedResult 3 [102, 111, 111] 1
          (cacheResult 3 [102, 111, 111] c4Result 1 emptyRL)).1 = some c4Result)
    ∧ (c4State.cache (cacheKey 3 [102, 111, 111]) = some (c4Result, 0)
      ∧ c4State.ttl < 400 - 0
      ∧ (getCachedResult 3 [102, 111, 111] 400 c4State).1 = none
      ∧ (getCachedResult 3 [102, 111, 111] 400 c4State).2.cache (cacheKey 3 [102, 111, 111]) = none) := by
  have h2 := (c4_cache_roundtrip c4State 3 [102, 111, 111] c4Result 0 400).2
    (by simp [c4State, mapUpdate_same]) (by norm_num [c4State, emptyRL])
  exact ⟨⟨by norm_num [emptyRL],
    (c4_cache_roundtrip emptyRL 3 [102, 111, 111] c4Result 0 1).1 (by norm_num [emptyRL])⟩,
    by simp [c4State, mapUpdate_same], by norm_num [c4State, emptyRL], h2.1, h2.2⟩

/-! ### C9: the spend getters are pure reads -/

/-- C9 (confirmed): `get_daily_spend` and `get_remaining_budget` return the
state unchanged; on a stale epoch they report 0 (respectively the full
budget, when the budget is nonnegative) without mutating anything; the
rollover write is performed by `check_budget` and `record_spend`. -/
theorem c9_getters_pure (s : RL) (u d : Nat) (c : ℚ) :
    (getDailySpend u d s).2 = s
    ∧ (getRemainingBudget u d s).2 = s
    ∧ (s.spendDates u ≠ some d →
        (getDailySpend u d s).1 = 0
        ∧ (0 ≤ s.budget → (getRemainingBudget u d s).1 = s.budget)
        ∧ (checkBudget u d s).2 =
            { s with dailySpend := mapUpdate s.dailySpend u (some 0),
                     spendDates := mapUpdate s.spendDates u (some d) }
        ∧ (recordSpend u d c s).spendDates u = some d) := by
  refine ⟨rfl, rfl, fun h => ⟨?_, ?_, ?_, ?_⟩⟩
  · simp [getDailySpend, h]
  · intro hb
    simp [getRemainingBudget, getDailySpend, h]
    exact hb
  · rw [checkBudget_state]
    simp [rolloverIfNewDay, h]
  · have hd := rollover_dates u d s
    simp [recordSpend, hd]

/-- C9 witness: the theorem applied to a limiter with spend 5 under day
stamp 1, read on day 2. -/
theorem c9_witness :
    (staleState.spendDates 7 ≠ some 2)
    ∧ (getDailySpend 7 2 staleState).2 = staleState
    ∧ (getRemainingBudget 7 2 staleState).2 = staleState
    ∧ ((getDailySpend 7 2 staleState).1 = 0
        ∧ (0 ≤ staleState.budget → (getRemainingBudget 7 2 staleState).1 = staleState.budget)
        ∧ (checkBudget 7 2 staleState).2 =
            { staleState with dailySpend := mapUpdate staleState.dailySpend 7 (some 0),
                              spendDates := mapUpdate staleState.spendDates 7 (some 2) }
        ∧ (recordSpend 7 2 (1 / 3) staleState).spendDates 7 = some 2) :=
  ⟨by decide, (c9_getters_pure staleState 7 2 (1 / 3)).1,
   (c9_getters_pure staleState 7 2 (1 / 3)).2.1,
   (c9_getters_pure staleState 7 2 (1 / 3)).2.2 (by decide)⟩

/-! ### C10: empty question short-circuits before any state access -/

/-- C10 (confirmed): a query whose question argument is empty is answered
with the usage message and leaves the limiter state exactly unchanged (no
cooldown timestamp, no budget or cache access, no engine call), so any
subsequent query behaves exactly as if the empty one had never happened. -/
theorem c10_empty_question (args args2 : List Str) (u u2 : Nat) (now now2 : ℚ)
    (today today2 : Nat) (eng eng2 : EngineResult) (s : RL)
    (h : pyQuestion args = []) :
    handleVaultQuery args u now today eng s = (Reply.usageMsg, s, 0)
    ∧ handleVaultQuery args2 u2 now2 today2 eng2 (handleVaultQuery args u now today eng s).2.1
        = handleVaultQuery args2 u2 now2 today2 eng2 s := by
  have h1 : handleVaultQuery args u now today eng s = (Reply.usageMsg, s, 0) := by
    unfold handleVaultQuery
    rw [if_pos h]
  exact ⟨h1, by rw [h1]⟩

/-- C10 witness: the theorem applied to an empty argument list followed by a
well-formed query. -/
theorem c10_witness :
    pyQuestion [] = []
    ∧ handleVaultQuery [] 7 1 0 (EngineResult.fail []) emptyRL = (Reply.usageMsg, emptyRL, 0)
    ∧ handleVaultQuery [[104]] 7 1 0 (EngineResult.fail [])
        (handleVaultQuery [] 7 1 0 (EngineResult.fail []) emptyRL).2.1
      = handleVaultQuery [[104]] 7 1 0 (EngineResult.fail []) emptyRL :=
  ⟨rfl,
   (c10_empty_question [] [[104]] 7 7 1 1 0 0 (EngineResult.fail []) (EngineResult.fail [])
     emptyRL rfl).1,
   (c10_empty_question [] [[104]] 7 7 1 1 0 0 (EngineResult.fail []) (EngineResult.fail [])
     emptyRL rfl).2⟩

/-! ### C5: cache key derivation -/

/-- C5 counterexample: the cache key is a 128-bit MD5 digest, so the map from
(user, question) pairs to keys cannot be injective: by pigeonhole over the
infinitely many questions `"a" * n` (all fixed by normalization, pairwise
distinct), two distinct pairs share a key while their normalized questions
differ — refuting the claimed "if and only if". -/
theorem c5_counterexample :
    ¬ ∀ (u1 u2 : Nat) (q1 q2 : Str),
        cacheKey u1 q1 = cacheKey u2 q2 ↔ (u1 = u2 ∧ normalizeQ q1 = normalizeQ q2) := by
  intro hAll
  obtain ⟨n, m, hne, heq⟩ :=
    Finite.exists_ne_map_eq_of_infinite
      (fun n : Nat =>
        (⟨md5Digest (utf8 (cacheKeyStr 0 (List.replicate n 97))), md5Digest_lt _⟩ :
          Fin 340282366920938463463374607431768211456))
  have hdig : md5Digest (utf8 (cacheKeyStr 0 (List.replicate n 97)))
      = md5Digest (utf8 (cacheKeyStr 0 (List.replicate m 97))) := congrArg Fin.val heq
  have hkey : cacheKey 0 (List.replicate n 97) = cacheKey 0 (List.replicate m 97) :=
    congrArg hexRender hdig
  have hnorm := (hAll 0 0 (List.replicate n 97) (List.replicate m 97)).mp hkey
  rw [normalizeQ_replicate, normalizeQ_replicate] at hnorm
  have hlen := congrArg List.length hnorm.2
  simp at hlen
  exact hne hlen

/-- C5 (amended): equal user and equal normalized (trimmed, case-folded)
question always give the same cache key — in particular `"Foo "` and `"foo"`
address the same entry — and the pre-hash encoding `f"{user_id}:{normalized}"`
is injective, so two different pairs can collide only through an MD5 digest
collision, never through the encoding. -/
theorem c5_cache_key (u1 u2 : Nat) (q1 q2 : Str) :
    ((u1 = u2 ∧ normalizeQ q1 = normalizeQ q2) → cacheKey u1 q1 = cacheKey u2 q2)
    ∧ (cacheKeyStr u1 q1 = cacheKeyStr u2 q2 ↔ (u1 = u2 ∧ normalizeQ q1 = normalizeQ q2)) := by
  refine ⟨fun h => ?_, cacheKeyStr_iff u1 u2 q1 q2⟩
  exact congrArg (fun x => md5Hex (utf8 x)) ((cacheKeyStr_iff u1 u2 q1 q2).mpr h)

/-- C5 witness: the amended theorem applied to user 3 with questions
`"Foo "` and `"foo"` (code points), which normalize identically. -/
theorem c5_witness :
    ((3 : Nat) = 3 ∧ normalizeQ [70, 111, 111, 32] = normalizeQ [102, 111, 111])
    ∧ cacheKey 3 [70, 111, 111, 32] = cacheKey 3 [102, 111, 111]
    ∧ (cacheKeyStr 3 [70, 111, 111, 32] = cacheKeyStr 3 [102, 111, 111] ↔
        ((3 : Nat) = 3 ∧ normalizeQ [70, 111, 111, 32] = normalizeQ [102, 111, 111])) :=
  ⟨⟨rfl, by decide⟩,
   (c5_cache_key 3 3 [70, 111, 111, 32] [102, 111, 111]).1 ⟨rfl, by decide⟩,
   (c5_cache_key 3 3 [70, 111, 111, 32] [102, 111, 111]).2⟩

/-! ### C6: message deduplication -/

/-- C6 counterexample: the dedup key is a 128-bit MD5 digest of
`f"{content}:{timestamp}"`, so by pigeonhole there exist two distinct
timestamps whose encodings collide; after seeing the first, the guard reports
the second as a duplicate — refuting "for the same content with a different
timestamp it returns false" as a universal statement. -/
theorem c6_counterexample :
    ¬ ∀ (c : Str) (t t2 : Nat), t ≠ t2 →
        (isDuplicateMessage c t2 0 (isDuplicateMessage c t 0 (fun _ => none)).2).1 = false := by
  intro hAll
  obtain ⟨t1, t2, hne, heq⟩ :=
    Finite.exists_ne_map_eq_of_infinite
      (fun t : Nat =>
        (⟨md5Digest (utf8 (([] : Str) ++ 58 :: natRepr t)), md5Digest_lt _⟩ :
          Fin 340282366920938463463374607431768211456))
  have hdig : md5Digest (utf8 (([] : Str) ++ 58 :: natRepr t1))
      = md5Digest (utf8 (([] : Str) ++ 58 :: natRepr t2)) := congrArg Fin.val heq
  have hhash : hashMessage [] t1 = hashMessage [] t2 := congrArg hexRender hdig
  have h1 : (isDuplicateMessage [] t1 0 (fun _ => none)).2 (hashMessage [] t2) = some 0 := by
    rw [← hhash]
    simp [isDuplicateMessage, purgeHashes, mapUpdate]
  have htrue : (isDuplicateMessage [] t2 0 (isDuplicateMessage [] t1 0 (fun _ => none)).2).1
      = true := by
    simp only [isDuplicateMessage, ← hhash]
    norm_num [purgeHashes, mapUpdate, DEDUP_WINDOW_SECONDS]
  have hres := hAll [] t1 t2 hne
  rw [hres] at htrue
  exact Bool.false_ne_true htrue

/-- C6 (amended): a message is not a duplicate on first sight and is a
duplicate when immediately repeated with identical (content, timestamp); the
duplicate hit leaves the stored first-seen time unchanged; the same content
with a different timestamp is not a duplicate provided the two
content:timestamp encodings have distinct MD5 digests (an MD5 collision being
the only exception); and every entry older than the dedup window is purged
before the test. -/
theorem c6_dedup (c : Str) (t t2 : Nat) (now now2 : ℚ) (m : DMap) :
    ((isDuplicateMessage c t now (fun _ => none)).1 = false)
    ∧ (¬ DEDUP_WINDOW_SECONDS < now2 - now →
        (isDuplicateMessage c t now2 (isDuplicateMessage c t now (fun _ => none)).2).1 = true
        ∧ (isDuplicateMessage c t now2 (isDuplicateMessage c t now (fun _ => none)).2).2
            (hashMessage c t) = some now)
    ∧ (hashMessage c t2 ≠ hashMessage c t →
        (isDuplicateMessage c t2 now2 (isDuplicateMessage c t now (fun _ => none)).2).1 = false)
    ∧ (∀ h ts, m h = some ts → DEDUP_WINDOW_SECONDS < now - ts →
        purgeHashes now m h = none
        ∧ (h ≠ hashMessage c t → (isDuplicateMessage c t now m).2 h = none)) := by
  refine ⟨?_, fun hwin => ⟨?_, ?_⟩, fun hne => ?_, fun h ts hm hold => ⟨?_, fun hne2 => ?_⟩⟩
  · simp [isDuplicateMessage, purgeHashes]
  · simp [isDuplicateMessage, purgeHashes, mapUpdate, hwin]
  · simp [isDuplicateMessage, purgeHashes, mapUpdate, hwin]
  · simp [isDuplicateMessage, purgeHashes, mapUpdate, hne]
  · simp [purgeHashes, hm, hold]
  · have hpurged : purgeHashes now m h = none := by simp [purgeHashes, hm, hold]
    rcases hm1 : purgeHashes now m (hashMessage c t) with _ | v
    · simp [isDuplicateMessage, hm1, mapUpdate, hne2, hpurged]
    · simp [isDuplicateMessage, hm1, hpurged]

set_option maxRecDepth 100000 in
/-- C6 witness: the amended theorem applied to content `""` with timestamps 1
and 2 at wall-clock time 0, over a table holding one entry older than the
window. -/
theorem c6_witness :
    (¬ DEDUP_WINDOW_SECONDS < (0 : ℚ) - 0)
    ∧ (isDuplicateMessage [] 1 0 (fun _ => none)).1 = false
    ∧ (isDuplicateMessage [] 1 0 (isDuplicateMessage [] 1 0 (fun _ => none)).2).1 = true
    ∧ (isDuplicateMessage [] 1 0 (isDuplicateMessage [] 1 0 (fun _ => none)).2).2
        (hashMessage [] 1) = some 0
    ∧ hashMessage [] 2 ≠ hashMessage [] 1
    ∧ (isDuplicateMessage [] 2 0 (isDuplicateMessage [] 1 0 (fun _ => none)).2).1 = false
    ∧ c6Map [99] = some (-400)
    ∧ DEDUP_WINDOW_SECONDS < (0 : ℚ) - (-400)
    ∧ purgeHashes 0 c6Map [99] = none
    ∧ ([99] : Str) ≠ hashMessage [] 1
    ∧ (isDuplicateMessage [] 1 0 c6Map).2 [99] = none := by
  have hwin : ¬ DEDUP_WINDOW_SECONDS < (0 : ℚ) - 0 := by norm_num [DEDUP_WINDOW_SECONDS]
  have hhash : hashMessage [] 2 ≠ hashMessage [] 1 := by decide
  have hmem : c6Map [99] = some (-400) := by simp [c6Map, mapUpdate]
  have hold : DEDUP_WINDOW_SECONDS < (0 : ℚ) - (-400) := by norm_num [DEDUP_WINDOW_SECONDS]
  have hne99 : ([99] : Str) ≠ hashMessage [] 1 := by decide
  have hmain := c6_dedup [] 1 2 0 0 c6Map
  have hrep := hmain.2.1 hwin
  have hsweep := hmain.2.2.2 [99] (-400) hmem hold
  exact ⟨hwin, hmain.1, hrep.1, hrep.2, hhash, hmain.2.2.1 hhash, hmem, hold,
    hsweep.1, hne99, hsweep.2 hne99⟩

/-! ### C7: orchestrator short circuits -/

/-- C7 (confirmed): a rate-limit denial replies with the cooldown message and
leaves the whole limiter state (budget ledger and cache included) unchanged
with no engine call; a cache hit replies with the (truncated) cached answer,
makes no engine call, records no spend, and leaves the reported daily spend
unchanged. -/
theorem c7_short_circuit (args : List Str) (u : Nat) (now : ℚ) (today : Nat)
    (eng : EngineResult) (s : RL) (r : QResult) :
    (pyQuestion args ≠ [] → (checkRateLimit u now s).1.1 = false →
      handleVaultQuery args u now today eng s
        = (Reply.rateLimited (checkRateLimit u now s).1.2, s, 0))
    ∧ (pyQuestion args ≠ [] → (checkRateLimit u now s).1.1 = true →
        (checkBudget u today (checkRateLimit u now s).2).1 = true →
        (getCachedResult u (pyQuestion args) now
            (checkBudget u today (checkRateLimit u now s).2).2).1 = some r →
      handleVaultQuery args u now today eng s
        = (Reply.cachedAnswer (pyTruncate r.answer),
           (checkBudget u today (checkRateLimit u now s).2).2, 0)
      ∧ observedSpend u today (checkBudget u today (checkRateLimit u now s).2).2
          = observedSpend u today s) := by
  constructor
  · intro hq hden
    simp only [handleVaultQuery]
    rw [if_neg hq, if_pos hden, checkRateLimit_denied_state u now s hden]
  · intro hq hr hb hc
    have hstate := getCachedResult_some_state u (pyQuestion args) now
      (checkBudget u today (checkRateLimit u now s).2).2 r hc
    constructor
    · simp [handleVaultQuery, hq, hr, hb, hc, hstate]
    · have h1 := observed_checkBudget u today (checkRateLimit u now s).2
      have hf := checkRateLimit_frame u now s
      have h2 := observed_congr u today s (checkRateLimit u now s).2 hf.1 hf.2.1
      rw [h1, h2]

/-- C7 witness: the theorem applied to a denial (user 7 re-querying after 0.5s
of a 30s cooldown) and to a cache hit for user 7 on question `"foo"`. -/
theorem c7_witness :
    (pyQuestion [[104]] ≠ []
      ∧ (checkRateLimit 7 (1 / 2) c1State).1.1 = false
      ∧ handleVaultQuery [[104]] 7 (1 / 2) 0 (EngineResult.fail []) c1State
          = (Reply.rateLimited (checkRateLimit 7 (1 / 2) c1State).1.2, c1State, 0))
    ∧ (pyQuestion [[102, 111, 111]] ≠ []
      ∧ (checkRateLimit 7 1 c7State).1.1 = true
      ∧ (checkBudget 7 0 (checkRateLimit 7 1 c7State).2).1 = true
      ∧ (getCachedResult 7 (pyQuestion [[102, 111, 111]]) 1
            (checkBudget 7 0 (checkRateLimit 7 1 c7State).2).2).1 = some c4Result
      ∧ handleVaultQuery [[102, 111, 111]] 7 1 0 (EngineResult.fail []) c7State
          = (Reply.cachedAnswer (pyTruncate c4Result.answer),
             (checkBudget 7 0 (checkRateLimit 7 1 c7State).2).2, 0)
      ∧ observedSpend 7 0 (checkBudget 7 0 (checkRateLimit 7 1 c7State).2).2
          = observedSpend 7 0 c7State) := by
  have hA2 : (checkRateLimit 7 (1 / 2) c1State).1.1 = false := by
    norm_num [checkRateLimit, c1State, emptyRL, mapUpdate]
  have hB2 : (checkRateLimit 7 1 c7State).1.1 = true := by
    simp [checkRateLimit, c7State, emptyRL]
  have hB3 : (checkBudget 7 0 (checkRateLimit 7 1 c7State).2).1 = true := by
    rw [checkBudget_true_iff]
    have h1 : (checkRateLimit 7 1 c7State).2.spendDates 7 = none := rfl
    have h2 : (checkRateLimit 7 1 c7State).2.budget = 1 := rfl
    rw [h2]
    simp [observedSpend, getDailySpend, h1]
  have hcache7 : (checkBudget 7 0 (checkRateLimit 7 1 c7State).2).2.cache
      = c7State.cache := by
    rw [checkBudget_state, rollover_cache]
    rfl
  have hpq : pyQuestion [[102, 111, 111]] = [102, 111, 111] := rfl
  have hB4 : (getCachedResult 7 (pyQuestion [[102, 111, 111]]) 1
      (checkBudget 7 0 (checkRateLimit 7 1 c7State).2).2).1 = some c4Result := by
    have hkey : (checkBudget 7 0 (checkRateLimit 7 1 c7State).2).2.cache
        (cacheKey 7 (pyQuestion [[102, 111, 111]])) = some (c4Result, 0) := by
      rw [hcache7, hpq]
      simp only [c7State, mapUpdate_same]
    have httl : (checkBudget 7 0 (checkRateLimit 7 1 c7State).2).2.ttl = 300 := by
      rw [checkBudget_state]
      have hro : (rolloverIfNewDay 7 0 (checkRateLimit 7 1 c7State).2).ttl
          = (checkRateLimit 7 1 c7State).2.ttl := by
        unfold rolloverIfNewDay
        split <;> rfl
      rw [hro]
      rfl
    have hcond : ¬ (checkBudget 7 0 (checkRateLimit 7 1 c7State).2).2.ttl < 1 - 0 := by
      rw [httl]
      norm_num
    simp only [getCachedResult, hkey]
    rw [if_neg hcond]
  have hBmain := (c7_short_circuit [[102, 111, 111]] 7 1 0 (EngineResult.fail []) c7State
      c4Result).2 (by decide) hB2 hB3 hB4
  exact ⟨⟨by decide, hA2,
      (c7_short_circuit [[104]] 7 (1 / 2) 0 (EngineResult.fail []) c1State c4Result).1
        (by decide) hA2⟩,
    by decide, hB2, hB3, hB4, hBmain.1, hBmain.2⟩

/-! ### C8: engine failure records nothing -/

/-- C8 (confirmed): when the engine call fails, the orchestrator leaves the
limiter state exactly as it was at the moment of the call (no spend recorded,
no cache entry written), surfaces the failure as an error reply whose message
is truncated to at most 200 characters, and makes exactly one engine call (no
retry). -/
theorem c8_engine_failure (args : List Str) (u : Nat) (now : ℚ) (today : Nat)
    (e : Str) (s : RL)
    (hq : pyQuestion args ≠ [])
    (hr : (checkRateLimit u now s).1.1 = true)
    (hb : (checkBudget u today (checkRateLimit u now s).2).1 = true)
    (hc : (getCachedResult u (pyQuestion args) now
        (checkBudget u today (checkRateLimit u now s).2).2).1 = none) :
    handleVaultQuery args u now today (EngineResult.fail e) s
      = (Reply.errorReply (e.take 200),
         (getCachedResult u (pyQuestion args) now
            (checkBudget u today (checkRateLimit u now s).2).2).2, 1)
    ∧ (e.take 200).length ≤ 200 := by
  constructor
  · simp [handleVaultQuery, hq, hr, hb, hc]
  · simp [List.length_take]

/-- C8 witness: the theorem applied to a fresh limiter with question `"h"`
and a failing engine carrying message `"x"`. -/
theorem c8_witness :
    (pyQuestion [[104]] ≠ []
    ∧ (checkRateLimit 7 1 emptyRL).1.1 = true
    ∧ (checkBudget 7 0 (checkRateLimit 7 1 emptyRL).2).1 = true
    ∧ (getCachedResult 7 (pyQuestion [[104]]) 1
        (checkBudget 7 0 (checkRateLimit 7 1 emptyRL).2).2).1 = none)
    ∧ (handleVaultQuery [[104]] 7 1 0 (EngineResult.fail [120]) emptyRL
        = (Reply.errorReply (([120] : Str).take 200),
           (getCachedResult 7 (pyQuestion [[104]]) 1
              (checkBudget 7 0 (checkRateLimit 7 1 emptyRL).2).2).2, 1)
      ∧ ((([120] : Str).take 200).length ≤ 200)) := by
  have h2 : (checkRateLimit 7 1 emptyRL).1.1 = true := by
    simp [checkRateLimit, emptyRL]
  have h3 : (checkBudget 7 0 (checkRateLimit 7 1 emptyRL).2).1 = true := by
    rw [checkBudget_true_iff]
    have ha : (checkRateLimit 7 1 emptyRL).2.spendDates 7 = none := rfl
    have hb : (checkRateLimit 7 1 emptyRL).2.budget = 1 := rfl
    rw [hb]
    simp [observedSpend, getDailySpend, ha]
  have h4 : (getCachedResult 7 (pyQuestion [[104]]) 1
      (checkBudget 7 0 (checkRateLimit 7 1 emptyRL).2).2).1 = none := by
    have hkey : (checkBudget 7 0 (checkRateLimit 7 1 emptyRL).2).2.cache
        (cacheKey 7 (pyQuestion [[104]])) = none := by
      rw [checkBudget_state, rollover_cache]
      rfl
    simp only [getCachedResult, hkey]
  exact ⟨⟨by decide, h2, h3, h4⟩,
    c8_engine_failure [[104]] 7 1 0 [120] emptyRL (by decide) h2 h3 h4⟩

end TBrain
